import Mathlib

/-!
Shallow embedding of the order-validator-service saga code.

Sources embedded:
* `internal/models` (src/unnamed/part_000): `OrderStatus`, `OrderSide`,
  `PlaceOrderRequest`, validation error constants, `PlaceOrderRequest.Validate`.
* `internal/activity/validation_activities.go`: `ValidationActivities`,
  `NewValidationActivities`, `ValidateOrder`.
* `internal/workflow` (wallet_activities.go, second and third sections):
  the activity input/output types, `PlaceOrderWorkflow` and `compensate`.

Modelling conventions: `shopspring/decimal.Decimal` is an arbitrary-precision
decimal stored as an integer coefficient and a power-of-ten exponent; it is
embedded as `GoDecimal` with the same representation, with the comparison
operations and `String()` rendering implemented over `ℤ`/`ℕ`.  Go strings
become `String`, a Go `error` becomes `Option String` holding the error
message, and a fallible pair `(*T, error)` becomes `Option T × Option String`.
Temporal activity executions are modelled by an environment (`ActivityEnv`)
that fixes, for each activity, the outcome of `ExecuteActivity(...).Get` after
the configured retry policy has run its course.  The workflow is then a pure
function of the environment and its input, returning the final result, the Go
error value, the list of activity invocations in order (with their full
inputs, including idempotency keys), and the sequence of values assigned to
`result.Status`.
-/

/-- `shopspring/decimal.Decimal`: the number `value * 10 ^ exp`. -/
structure GoDecimal where
  value : ℤ
  exp : ℤ
deriving DecidableEq, Repr

/-- `decimal.NewFromInt`. -/
def GoDecimal.NewFromInt (n : ℤ) : GoDecimal := ⟨n, 0⟩

/-- `decimal.Zero` (the library defines it as `New(0, 1)`). -/
def GoDecimal.Zero : GoDecimal := ⟨0, 1⟩

/-- Rescale two decimals to their smaller exponent, returning the two integer
coefficients at that common exponent (the library's `rescalePair`). -/
def GoDecimal.rescale2 (a b : GoDecimal) : ℤ × ℤ :=
  if a.exp ≤ b.exp then
    (a.value, b.value * Int.ofNat (10 ^ (b.exp - a.exp).toNat))
  else
    (a.value * Int.ofNat (10 ^ (a.exp - b.exp).toNat), b.value)

/-- `Decimal.LessThan`. -/
def GoDecimal.LessThan (a b : GoDecimal) : Bool :=
  let p := GoDecimal.rescale2 a b
  decide (p.1 < p.2)

/-- `Decimal.LessThanOrEqual`. -/
def GoDecimal.LessThanOrEqual (a b : GoDecimal) : Bool :=
  let p := GoDecimal.rescale2 a b
  decide (p.1 ≤ p.2)

/-- `Decimal.GreaterThan`. -/
def GoDecimal.GreaterThan (a b : GoDecimal) : Bool :=
  let p := GoDecimal.rescale2 a b
  decide (p.2 < p.1)

/-- `Decimal.String()`: digits of the coefficient with the decimal point
inserted per the exponent and trailing fractional zeros trimmed
(`⟨101, -2⟩ → "1.01"`, `⟨1, 0⟩ → "1"`). -/
def GoDecimal.String (d : GoDecimal) : String :=
  let sgn := if d.value < 0 then "-" else ""
  let n := d.value.natAbs
  if 0 ≤ d.exp then
    sgn ++ toString (n * 10 ^ d.exp.toNat)
  else
    let e := (-d.exp).toNat
    let digits := toString n
    let digits := String.mk (List.replicate (e + 1 - digits.length) '0') ++ digits
    let ip := String.mk (digits.data.take (digits.length - e))
    let fp := String.mk ((digits.data.drop (digits.length - e)).reverse.dropWhile
      (fun c => c == '0')).reverse
    if fp = "" then sgn ++ ip else sgn ++ ip ++ "." ++ fp

/-- `models.OrderStatus`: lifecycle state of an order.  In Go these are string
constants; the fixed set of seven constants is modelled as an inductive. -/
inductive OrderStatus where
  | Pending
  | Validating
  | Reserving
  | Matching
  | Settled
  | Failed
  | Cancelled
deriving DecidableEq, Repr

/-- `models.OrderSide` is a Go string type; arbitrary strings inhabit it
(the tests use side "INVALID"), so it is modelled as `String`. -/
abbrev OrderSide := String

def OrderSideBack : OrderSide := "BACK"

def OrderSideLay : OrderSide := "LAY"

/-- `models.PlaceOrderRequest`.  `UserID` (a uuid) is modelled as a string.
`Metadata` is dropped: no embedded function reads it. -/
structure PlaceOrderRequest where
  UserID : String
  EventID : String
  MarketID : String
  SelectionID : String
  Side : OrderSide
  Odds : GoDecimal
  Stake : GoDecimal
  Currency : String
  IdempotencyKey : String
deriving DecidableEq, Repr

def ErrInvalidOdds : String := "invalid odds: must be greater than 1.0"

def ErrInvalidStake : String := "invalid stake: must be positive"

def ErrInvalidCurrency : String := "invalid currency: must be 3-letter code"

def ErrInvalidSide : String := "invalid side: must be BACK or LAY"

/-- `models.ValidationError`. -/
structure ValidationError where
  Field : String
  Message : String
deriving DecidableEq, Repr

/-- `ValidationError.Error()` returns the message. -/
def ValidationError.Error (e : ValidationError) : String := e.Message

/-- `models.PlaceOrderRequest.Validate`: basic field validation.  The Go
`len(r.Currency)` is a byte length; `String.length` coincides with it on the
ASCII currency codes this service handles. -/
def PlaceOrderRequest.Validate (r : PlaceOrderRequest) : Option ValidationError :=
  if r.Odds.LessThanOrEqual (GoDecimal.NewFromInt 1) then some ⟨"odds", ErrInvalidOdds⟩
  else if r.Stake.LessThanOrEqual GoDecimal.Zero then some ⟨"stake", ErrInvalidStake⟩
  else if r.Currency.length ≠ 3 then some ⟨"currency", ErrInvalidCurrency⟩
  else if r.Side ≠ OrderSideBack ∧ r.Side ≠ OrderSideLay then some ⟨"side", ErrInvalidSide⟩
  else none

/-- `activity.ValidationActivities`: the configuration carried by the
validator (the logger is dropped). -/
structure ValidationActivities where
  minStake : GoDecimal
  maxStake : GoDecimal
  minOdds : GoDecimal
  maxOdds : GoDecimal
deriving DecidableEq, Repr

/-- `activity.NewValidationActivities`: the hard-coded configuration
(`decimal.NewFromFloat` of 1.0, 10000.0, 1.01, 1000.0 gives the exact decimals
1, 10000, 1.01, 1000). -/
def NewValidationActivities : ValidationActivities :=
  { minStake := ⟨1, 0⟩
    maxStake := ⟨10000, 0⟩
    minOdds := ⟨101, -2⟩
    maxOdds := ⟨1000, 0⟩ }

/-- `workflow.ValidationResult`. -/
structure ValidationResult where
  Valid : Bool
  Reason : String
deriving DecidableEq, Repr

/-- `activity.ValidationActivities.ValidateOrder`: basic validation via
`req.Validate()`, then stake limits, then odds limits.  Every Go return path
yields a non-nil result and a nil error, hence the second component is always
`none`. -/
def ValidationActivities.ValidateOrder (a : ValidationActivities)
    (req : PlaceOrderRequest) : Option ValidationResult × Option String :=
  match req.Validate with
  | some err => (some ⟨false, err.Error⟩, none)
  | none =>
      if req.Stake.LessThan a.minStake then
        (some ⟨false, "stake too low: minimum is " ++ a.minStake.String⟩, none)
      else if req.Stake.GreaterThan a.maxStake then
        (some ⟨false, "stake too high: maximum is " ++ a.maxStake.String⟩, none)
      else if req.Odds.LessThan a.minOdds then
        (some ⟨false, "odds too low: minimum is " ++ a.minOdds.String⟩, none)
      else if req.Odds.GreaterThan a.maxOdds then
        (some ⟨false, "odds too high: maximum is " ++ a.maxOdds.String⟩, none)
      else (some ⟨true, ""⟩, none)

/-! ### Workflow types (`internal/workflow`, third section of wallet_activities.go) -/

/-- `workflow.ReserveFundsInput`. -/
structure ReserveFundsInput where
  UserID : String
  Amount : String
  Currency : String
  SagaID : String
  IdempotencyKey : String
deriving DecidableEq, Repr

/-- `workflow.ReserveFundsResult`. -/
structure ReserveFundsResult where
  ReservationID : String
  Status : String
deriving DecidableEq, Repr

/-- `workflow.CommitReservationInput`. -/
structure CommitReservationInput where
  ReservationID : String
  SagaID : String
  IdempotencyKey : String
deriving DecidableEq, Repr

/-- `workflow.CommitReservationResult`. -/
structure CommitReservationResult where
  Status : String
deriving DecidableEq, Repr

/-- `workflow.CancelReservationInput`. -/
structure CancelReservationInput where
  ReservationID : String
  SagaID : String
  IdempotencyKey : String
deriving DecidableEq, Repr

/-- `workflow.CancelReservationResult`. -/
structure CancelReservationResult where
  Status : String
deriving DecidableEq, Repr

/-- `workflow.PlaceOrderInBookInput`. -/
structure PlaceOrderInBookInput where
  UserID : String
  EventID : String
  MarketID : String
  SelectionID : String
  Side : String
  Odds : String
  Stake : String
  Currency : String
  ReservationID : String
  SagaID : String
  IdempotencyKey : String
deriving DecidableEq, Repr

/-- `workflow.PlaceOrderInBookResult`. -/
structure PlaceOrderInBookResult where
  OrderID : String
  MatchID : String
  Status : String
deriving DecidableEq, Repr

/-- `workflow.CancelOrderInput`. -/
structure CancelOrderInput where
  OrderID : String
  SagaID : String
  IdempotencyKey : String
deriving DecidableEq, Repr

/-- `workflow.CancelOrderResult`. -/
structure CancelOrderResult where
  Status : String
deriving DecidableEq, Repr

/-- `workflow.PlaceOrderWorkflowInput`. -/
structure PlaceOrderWorkflowInput where
  OrderRequest : PlaceOrderRequest
  SagaID : String
deriving DecidableEq, Repr

/-- `workflow.PlaceOrderWorkflowResult`.  (The Go struct literal initialising
it also mentions a `SagaID` field that the struct declaration does not have;
the declared fields are the five below.) -/
structure PlaceOrderWorkflowResult where
  OrderID : String
  Status : OrderStatus
  ReservationID : String
  MatchID : String
  FailureReason : String
deriving DecidableEq, Repr

/-- One activity invocation issued by the workflow, with its full input. -/
inductive Call where
  | validate (input : PlaceOrderRequest)
  | reserveFunds (input : ReserveFundsInput)
  | placeOrder (input : PlaceOrderInBookInput)
  | commitReservation (input : CommitReservationInput)
  | cancelOrder (input : CancelOrderInput)
  | cancelReservation (input : CancelReservationInput)
deriving DecidableEq, Repr

/-- Environment fixing, for each activity, the outcome of
`workflow.ExecuteActivity(...).Get(...)` after its retry policy is exhausted:
either the activity's result or the propagated error message. -/
structure ActivityEnv where
  validateOutcome : Except String ValidationResult
  reserveOutcome : Except String ReserveFundsResult
  placeOutcome : Except String PlaceOrderInBookResult
  commitOutcome : Except String CommitReservationResult
  cancelOrderOutcome : Except String CancelOrderResult
  cancelReservationOutcome : Except String CancelReservationResult
deriving Repr

/-- `workflow.compensate` (wallet_activities.go, second section, lines
293-345): cancel the order first if one was placed, then cancel the
reservation if one exists.  A failure of either cancellation is only logged
("Continue with other compensations"), so the calls issued do not depend on
the cancellation outcomes; the function returns nothing, so its value here is
the list of calls it issues. -/
def compensate (reservationID orderID sagaID : String) : List Call :=
  (if orderID ≠ "" then
    [Call.cancelOrder ⟨orderID, sagaID, sagaID ++ "-cancel-order"⟩]
  else []) ++
  (if reservationID ≠ "" then
    [Call.cancelReservation ⟨reservationID, sagaID, sagaID ++ "-cancel-reservation"⟩]
  else [])

/-- The observable outcome of one workflow execution: the returned result and
error, the activity calls issued in order, and the successive values assigned
to `result.Status`. -/
structure WorkflowExec where
  result : PlaceOrderWorkflowResult
  err : Option String
  calls : List Call
  statuses : List OrderStatus
deriving Repr

/-- `workflow.PlaceOrderWorkflow`: the saga.  Validate, then reserve funds,
then place the order, then commit the reservation; after a successful
reservation, a deferred function runs `compensate` whenever the function
returns with `result.Status` equal to `Failed` or `Cancelled` (which is the
case on every post-reservation failure path, with `orderID` still `""` when
placement failed).  Idempotency keys are exactly the Go expressions:
`input.OrderRequest.IdempotencyKey + "-reserve" / "-order" / "-commit"` for
the forward steps and `sagaID + "-cancel-order" / "-cancel-reservation"`
inside `compensate`. -/
def PlaceOrderWorkflow (env : ActivityEnv) (input : PlaceOrderWorkflowInput) :
    WorkflowExec :=
  let sagaID := input.SagaID
  let req := input.OrderRequest
  let calls0 := [Call.validate req]
  match env.validateOutcome with
  | .error e =>
      { result := { OrderID := "", Status := .Failed, ReservationID := "", MatchID := "",
                    FailureReason := "validation failed: " ++ e }
        err := some e
        calls := calls0
        statuses := [.Pending, .Failed] }
  | .ok validationResult =>
      if validationResult.Valid = false then
        { result := { OrderID := "", Status := .Failed, ReservationID := "", MatchID := "",
                      FailureReason := validationResult.Reason }
          err := some ("validation failed: " ++ validationResult.Reason)
          calls := calls0
          statuses := [.Pending, .Failed] }
      else
        let reserveInput : ReserveFundsInput :=
          { UserID := req.UserID
            Amount := req.Stake.String
            Currency := req.Currency
            SagaID := sagaID
            IdempotencyKey := req.IdempotencyKey ++ "-reserve" }
        let calls1 := calls0 ++ [Call.reserveFunds reserveInput]
        match env.reserveOutcome with
        | .error e =>
            { result := { OrderID := "", Status := .Failed, ReservationID := "", MatchID := "",
                          FailureReason := "fund reservation failed: " ++ e }
              err := some e
              calls := calls1
              statuses := [.Pending, .Reserving, .Failed] }
        | .ok reserveResult =>
            let reservationID := reserveResult.ReservationID
            let placeInput : PlaceOrderInBookInput :=
              { UserID := req.UserID
                EventID := req.EventID
                MarketID := req.MarketID
                SelectionID := req.SelectionID
                Side := req.Side
                Odds := req.Odds.String
                Stake := req.Stake.String
                Currency := req.Currency
                ReservationID := reservationID
                SagaID := sagaID
                IdempotencyKey := req.IdempotencyKey ++ "-order" }
            let calls2 := calls1 ++ [Call.placeOrder placeInput]
            match env.placeOutcome with
            | .error e =>
                { result := { OrderID := "", Status := .Failed,
                              ReservationID := reservationID, MatchID := "",
                              FailureReason := "order placement failed: " ++ e }
                  err := some e
                  calls := calls2 ++ compensate reservationID "" sagaID
                  statuses := [.Pending, .Reserving, .Matching, .Failed] }
            | .ok placeOrderResult =>
                let orderID := placeOrderResult.OrderID
                let commitInput : CommitReservationInput :=
                  { ReservationID := reservationID
                    SagaID := sagaID
                    IdempotencyKey := req.IdempotencyKey ++ "-commit" }
                let calls3 := calls2 ++ [Call.commitReservation commitInput]
                match env.commitOutcome with
                | .error e =>
                    { result := { OrderID := orderID, Status := .Failed,
                                  ReservationID := reservationID, MatchID := "",
                                  FailureReason := "reservation commit failed: " ++ e }
                      err := some e
                      calls := calls3 ++ compensate reservationID orderID sagaID
                      statuses := [.Pending, .Reserving, .Matching, .Failed] }
                | .ok _ =>
                    { result := { OrderID := orderID, Status := .Settled,
                                  ReservationID := reservationID,
                                  MatchID := placeOrderResult.MatchID,
                                  FailureReason := "" }
                      err := none
                      calls := calls3
                      statuses := [.Pending, .Reserving, .Matching, .Settled] }

/-- Whether a call is the CancelOrder compensation. -/
def Call.isCancelOrder : Call → Bool
  | .cancelOrder _ => true
  | _ => false

/-- Whether a call is the CancelReservation compensation. -/
def Call.isCancelReservation : Call → Bool
  | .cancelReservation _ => true
  | _ => false

/-- The compensation calls of a trace, in order. -/
def compensationCalls (t : List Call) : List Call :=
  t.filter (fun c => c.isCancelOrder || c.isCancelReservation)

/-- The idempotency key a call carries (the validation activity has none). -/
def Call.idemKey : Call → Option String
  | .validate _ => none
  | .reserveFunds i => some i.IdempotencyKey
  | .placeOrder i => some i.IdempotencyKey
  | .commitReservation i => some i.IdempotencyKey
  | .cancelOrder i => some i.IdempotencyKey
  | .cancelReservation i => some i.IdempotencyKey

/-! ### Sample fixtures used by witnesses and counterexamples -/

/-- A request matching the spec's success scenario (stake 100, odds 2.5,
side BACK). -/
def sampleRequest : PlaceOrderRequest :=
  { UserID := "user-1"
    EventID := "event-1"
    MarketID := "market-1"
    SelectionID := "selection-1"
    Side := "BACK"
    Odds := ⟨25, -1⟩
    Stake := ⟨100, 0⟩
    Currency := "USD"
    IdempotencyKey := "key-1" }

def sampleInput : PlaceOrderWorkflowInput := ⟨sampleRequest, "saga-1"⟩

/-- Environment in which every activity succeeds. -/
def envAllOk : ActivityEnv :=
  { validateOutcome := .ok ⟨true, ""⟩
    reserveOutcome := .ok ⟨"res-1", "RESERVED"⟩
    placeOutcome := .ok ⟨"ord-1", "match-1", "MATCHED"⟩
    commitOutcome := .ok ⟨"COMMITTED"⟩
    cancelOrderOutcome := .ok ⟨"CANCELLED"⟩
    cancelReservationOutcome := .ok ⟨"CANCELLED"⟩ }

/-- Environment in which the commit step fails and everything else
succeeds. -/
def envCommitFail : ActivityEnv := { envAllOk with commitOutcome := .error "commit failed" }

/-- Environment in which the placement step fails after its retries. -/
def envPlaceFail : ActivityEnv := { envAllOk with placeOutcome := .error "place failed" }

/-! ### Theorems -/

/-- C3: if validation passes and ReserveFunds, PlaceOrderInBook and
CommitReservation all succeed, the workflow result has status `Settled` and
carries the reservationID, orderID and matchID returned by those steps, and no
compensation activity is invoked. -/
theorem saga_success_settled (env : ActivityEnv) (input : PlaceOrderWorkflowInput)
    (v : ValidationResult) (r : ReserveFundsResult) (p : PlaceOrderInBookResult)
    (c : CommitReservationResult)
    (hv : env.validateOutcome = .ok v) (hvalid : v.Valid = true)
    (hr : env.reserveOutcome = .ok r) (hp : env.placeOutcome = .ok p)
    (hc : env.commitOutcome = .ok c) :
    (PlaceOrderWorkflow env input).result.Status = .Settled ∧
    (PlaceOrderWorkflow env input).result.ReservationID = r.ReservationID ∧
    (PlaceOrderWorkflow env input).result.OrderID = p.OrderID ∧
    (PlaceOrderWorkflow env input).result.MatchID = p.MatchID ∧
    compensationCalls (PlaceOrderWorkflow env input).calls = [] := by
  simp [PlaceOrderWorkflow, hv, hvalid, hr, hp, hc, compensationCalls,
    Call.isCancelOrder, Call.isCancelReservation]

/-- Witness for C3 at the spec's concrete success scenario. -/
theorem saga_success_settled_witness :
    envAllOk.validateOutcome = .ok ⟨true, ""⟩ ∧
    envAllOk.reserveOutcome = .ok ⟨"res-1", "RESERVED"⟩ ∧
    envAllOk.placeOutcome = .ok ⟨"ord-1", "match-1", "MATCHED"⟩ ∧
    envAllOk.commitOutcome = .ok ⟨"COMMITTED"⟩ ∧
    ((PlaceOrderWorkflow envAllOk sampleInput).result.Status = .Settled ∧
     (PlaceOrderWorkflow envAllOk sampleInput).result.ReservationID = "res-1" ∧
     (PlaceOrderWorkflow envAllOk sampleInput).result.OrderID = "ord-1" ∧
     (PlaceOrderWorkflow envAllOk sampleInput).result.MatchID = "match-1" ∧
     compensationCalls (PlaceOrderWorkflow envAllOk sampleInput).calls = []) :=
  ⟨rfl, rfl, rfl, rfl,
   saga_success_settled envAllOk sampleInput ⟨true, ""⟩ ⟨"res-1", "RESERVED"⟩
     ⟨"ord-1", "match-1", "MATCHED"⟩ ⟨"COMMITTED"⟩ rfl rfl rfl rfl rfl⟩

/-- C2: if validation passes, ReserveFunds succeeds with a non-empty
reservationID and PlaceOrderInBook then fails after its retries, the saga ends
`Failed`, CancelReservation is invoked exactly once with that reservationID
and the deterministic key `sagaID + "-cancel-reservation"`, and CancelOrder is
never invoked. -/
theorem saga_place_failure_compensation (env : ActivityEnv)
    (input : PlaceOrderWorkflowInput) (v : ValidationResult)
    (r : ReserveFundsResult) (e : String)
    (hv : env.validateOutcome = .ok v) (hvalid : v.Valid = true)
    (hr : env.reserveOutcome = .ok r) (hrid : r.ReservationID ≠ "")
    (hp : env.placeOutcome = .error e) :
    (PlaceOrderWorkflow env input).result.Status = .Failed ∧
    compensationCalls (PlaceOrderWorkflow env input).calls =
      [.cancelReservation
        ⟨r.ReservationID, input.SagaID, input.SagaID ++ "-cancel-reservation"⟩] ∧
    (PlaceOrderWorkflow env input).calls.countP Call.isCancelOrder = 0 ∧
    (PlaceOrderWorkflow env input).calls.countP Call.isCancelReservation = 1 := by
  simp [PlaceOrderWorkflow, hv, hvalid, hr, hp, hrid, compensate, compensationCalls,
    Call.isCancelOrder, Call.isCancelReservation, List.countP, List.countP.go]

/-- Witness for C2 at a concrete placement-failure execution. -/
theorem saga_place_failure_compensation_witness :
    envPlaceFail.validateOutcome = .ok ⟨true, ""⟩ ∧
    envPlaceFail.reserveOutcome = .ok ⟨"res-1", "RESERVED"⟩ ∧
    ("res-1" : String) ≠ "" ∧
    envPlaceFail.placeOutcome = .error "place failed" ∧
    ((PlaceOrderWorkflow envPlaceFail sampleInput).result.Status = .Failed ∧
     compensationCalls (PlaceOrderWorkflow envPlaceFail sampleInput).calls =
       [.cancelReservation ⟨"res-1", "saga-1", "saga-1" ++ "-cancel-reservation"⟩] ∧
     (PlaceOrderWorkflow envPlaceFail sampleInput).calls.countP Call.isCancelOrder = 0 ∧
     (PlaceOrderWorkflow envPlaceFail sampleInput).calls.countP Call.isCancelReservation = 1) :=
  ⟨rfl, rfl, by decide, rfl,
   saga_place_failure_compensation envPlaceFail sampleInput ⟨true, ""⟩
     ⟨"res-1", "RESERVED"⟩ "place failed" rfl rfl rfl (by decide) rfl⟩

/-- C1: in every execution where a reservation and an order were both recorded
(non-empty identifiers) and the saga then fails (commit fails after retries),
the compensation phase invokes CancelOrder and CancelReservation each exactly
once and in that order.  The environment's `cancelOrderOutcome` is universally
quantified and unconstrained, and the final conjunct states the calls issued
are unchanged under any CancelOrder outcome: a failing CancelOrder does not
prevent CancelReservation from being attempted. -/
theorem saga_double_compensation_order (env : ActivityEnv)
    (input : PlaceOrderWorkflowInput) (v : ValidationResult)
    (r : ReserveFundsResult) (p : PlaceOrderInBookResult) (e : String)
    (hv : env.validateOutcome = .ok v) (hvalid : v.Valid = true)
    (hr : env.reserveOutcome = .ok r) (hrid : r.ReservationID ≠ "")
    (hp : env.placeOutcome = .ok p) (hoid : p.OrderID ≠ "")
    (hc : env.commitOutcome = .error e) :
    (PlaceOrderWorkflow env input).result.Status = .Failed ∧
    compensationCalls (PlaceOrderWorkflow env input).calls =
      [.cancelOrder ⟨p.OrderID, input.SagaID, input.SagaID ++ "-cancel-order"⟩,
       .cancelReservation
         ⟨r.ReservationID, input.SagaID, input.SagaID ++ "-cancel-reservation"⟩] ∧
    (PlaceOrderWorkflow env input).calls.countP Call.isCancelOrder = 1 ∧
    (PlaceOrderWorkflow env input).calls.countP Call.isCancelReservation = 1 ∧
    (∀ o : Except String CancelOrderResult,
      (PlaceOrderWorkflow { env with cancelOrderOutcome := o } input).calls =
        (PlaceOrderWorkflow env input).calls) := by
  refine ⟨?_, ?_, ?_, ?_, ?_⟩ <;>
    simp [PlaceOrderWorkflow, hv, hvalid, hr, hp, hc, hrid, hoid, compensate,
      compensationCalls, Call.isCancelOrder, Call.isCancelReservation,
      List.countP, List.countP.go]

/-- Witness for C1 at the spec's double-compensation scenario. -/
theorem saga_double_compensation_order_witness :
    envCommitFail.validateOutcome = .ok ⟨true, ""⟩ ∧
    envCommitFail.reserveOutcome = .ok ⟨"res-1", "RESERVED"⟩ ∧
    ("res-1" : String) ≠ "" ∧
    envCommitFail.placeOutcome = .ok ⟨"ord-1", "match-1", "MATCHED"⟩ ∧
    ("ord-1" : String) ≠ "" ∧
    envCommitFail.commitOutcome = .error "commit failed" ∧
    ((PlaceOrderWorkflow envCommitFail sampleInput).result.Status = .Failed ∧
     compensationCalls (PlaceOrderWorkflow envCommitFail sampleInput).calls =
       [.cancelOrder ⟨"ord-1", "saga-1", "saga-1" ++ "-cancel-order"⟩,
        .cancelReservation ⟨"res-1", "saga-1", "saga-1" ++ "-cancel-reservation"⟩] ∧
     (PlaceOrderWorkflow envCommitFail sampleInput).calls.countP Call.isCancelOrder = 1 ∧
     (PlaceOrderWorkflow envCommitFail sampleInput).calls.countP Call.isCancelReservation = 1 ∧
     (∀ o : Except String CancelOrderResult,
       (PlaceOrderWorkflow { envCommitFail with cancelOrderOutcome := o } sampleInput).calls =
         (PlaceOrderWorkflow envCommitFail sampleInput).calls)) :=
  ⟨rfl, rfl, by decide, rfl, by decide, rfl,
   saga_double_compensation_order envCommitFail sampleInput ⟨true, ""⟩
     ⟨"res-1", "RESERVED"⟩ ⟨"ord-1", "match-1", "MATCHED"⟩ "commit failed"
     rfl rfl rfl (by decide) rfl (by decide) rfl⟩

/-- C6 counterexample: the forward-step keys are built from the request's
caller-supplied idempotency key, not from the saga identifier.  With
sagaID "saga-1" and request key "key-1", ReserveFunds is invoked with
"key-1-reserve", which differs from deriveKey(sagaID, "reserve") =
"saga-1" + "-" + "reserve". -/
theorem forward_keys_not_saga_derived :
    sampleInput.SagaID = "saga-1" ∧
    sampleInput.OrderRequest.IdempotencyKey = "key-1" ∧
    (PlaceOrderWorkflow envAllOk sampleInput).calls.filterMap Call.idemKey =
      ["key-1-reserve", "key-1-order", "key-1-commit"] ∧
    ("key-1-reserve" : String) ≠ "saga-1" ++ "-" ++ "reserve" := by
  decide

/-- C6 amended: on the success path the workflow issues exactly the four calls
below, whose forward-step idempotency keys are derived from the request's
caller-supplied idempotency key by concatenation — `IdempotencyKey +
"-reserve"`, `+ "-order"`, `+ "-commit"` — not from the saga identifier (the
saga identifier is used only for the compensation keys, cf. `compensate`). -/
theorem forward_keys_from_request (env : ActivityEnv)
    (input : PlaceOrderWorkflowInput) (v : ValidationResult)
    (r : ReserveFundsResult) (p : PlaceOrderInBookResult)
    (c : CommitReservationResult)
    (hv : env.validateOutcome = .ok v) (hvalid : v.Valid = true)
    (hr : env.reserveOutcome = .ok r) (hp : env.placeOutcome = .ok p)
    (hc : env.commitOutcome = .ok c) :
    (PlaceOrderWorkflow env input).calls =
      [.validate input.OrderRequest,
       .reserveFunds
         ⟨input.OrderRequest.UserID, input.OrderRequest.Stake.String,
          input.OrderRequest.Currency, input.SagaID,
          input.OrderRequest.IdempotencyKey ++ "-reserve"⟩,
       .placeOrder
         ⟨input.OrderRequest.UserID, input.OrderRequest.EventID,
          input.OrderRequest.MarketID, input.OrderRequest.SelectionID,
          input.OrderRequest.Side, input.OrderRequest.Odds.String,
          input.OrderRequest.Stake.String, input.OrderRequest.Currency,
          r.ReservationID, input.SagaID,
          input.OrderRequest.IdempotencyKey ++ "-order"⟩,
       .commitReservation
         ⟨r.ReservationID, input.SagaID,
          input.OrderRequest.IdempotencyKey ++ "-commit"⟩] := by
  simp [PlaceOrderWorkflow, hv, hvalid, hr, hp, hc]

/-- Witness for the amended C6 at the concrete success scenario. -/
theorem forward_keys_from_request_witness :
    envAllOk.validateOutcome = .ok ⟨true, ""⟩ ∧
    envAllOk.reserveOutcome = .ok ⟨"res-1", "RESERVED"⟩ ∧
    envAllOk.placeOutcome = .ok ⟨"ord-1", "match-1", "MATCHED"⟩ ∧
    envAllOk.commitOutcome = .ok ⟨"COMMITTED"⟩ ∧
    (PlaceOrderWorkflow envAllOk sampleInput).calls =
      [.validate sampleRequest,
       .reserveFunds
         ⟨sampleRequest.UserID, sampleRequest.Stake.String, sampleRequest.Currency,
          "saga-1", sampleRequest.IdempotencyKey ++ "-reserve"⟩,
       .placeOrder
         ⟨sampleRequest.UserID, sampleRequest.EventID, sampleRequest.MarketID,
          sampleRequest.SelectionID, sampleRequest.Side, sampleRequest.Odds.String,
          sampleRequest.Stake.String, sampleRequest.Currency, "res-1", "saga-1",
          sampleRequest.IdempotencyKey ++ "-order"⟩,
       .commitReservation ⟨"res-1", "saga-1", sampleRequest.IdempotencyKey ++ "-commit"⟩] :=
  ⟨rfl, rfl, rfl, rfl,
   forward_keys_from_request envAllOk sampleInput ⟨true, ""⟩ ⟨"res-1", "RESERVED"⟩
     ⟨"ord-1", "match-1", "MATCHED"⟩ ⟨"COMMITTED"⟩ rfl rfl rfl rfl rfl⟩

/-- Appending a fixed non-empty suffix with a different last character yields
different strings, whatever the left parts are. -/
theorem append_ne_of_last_ne {a b : String} (ha : a.data ≠ []) (hb : b.data ≠ [])
    (hne : a.data.getLast? ≠ b.data.getLast?) (k s : String) : k ++ a ≠ s ++ b := by
  intro he
  apply hne
  have hd : k.data ++ a.data = s.data ++ b.data := by
    simpa [String.data_append] using congrArg String.data he
  calc a.data.getLast? = (k.data ++ a.data).getLast? :=
        (List.getLast?_append_of_ne_nil _ ha).symm
    _ = (s.data ++ b.data).getLast? := by rw [hd]
    _ = b.data.getLast? := List.getLast?_append_of_ne_nil _ hb

/-- Appending distinct suffixes to the same string yields distinct strings. -/
theorem append_left_ne (k : String) {a b : String} (h : a ≠ b) : k ++ a ≠ k ++ b := by
  intro he
  apply h
  have hd : k.data ++ a.data = k.data ++ b.data := by
    simpa [String.data_append] using congrArg String.data he
  exact String.ext (List.append_cancel_left hd)

/-- Cancelling a common string suffix. -/
theorem eq_of_append_eq_append_suffix {k s c a : String}
    (h : k ++ a = s ++ (c ++ a)) : k = s ++ c := by
  apply String.ext
  have hd : k.data ++ a.data = s.data ++ c.data ++ a.data := by
    have h0 := congrArg String.data h
    simp only [String.data_append] at h0
    simpa [List.append_assoc] using h0
  have h1 := List.append_cancel_right hd
  simpa [String.data_append] using h1

/-- C7 counterexample: with request idempotency key "saga-1-cancel" under saga
"saga-1", the forward placeOrder key and the compensation cancelOrder key are
both "saga-1-cancel-order", so the keys used within one saga are not pairwise
distinct. -/
theorem idem_keys_can_collide :
    ({ sampleRequest with IdempotencyKey := "saga-1-cancel" } :
        PlaceOrderRequest).IdempotencyKey = "saga-1-cancel" ∧
    (PlaceOrderWorkflow envCommitFail
        ⟨{ sampleRequest with IdempotencyKey := "saga-1-cancel" }, "saga-1"⟩).calls.filterMap
        Call.idemKey =
      ["saga-1-cancel-reserve", "saga-1-cancel-order", "saga-1-cancel-commit",
       "saga-1-cancel-order", "saga-1-cancel-reservation"] ∧
    ¬ ((PlaceOrderWorkflow envCommitFail
        ⟨{ sampleRequest with IdempotencyKey := "saga-1-cancel" }, "saga-1"⟩).calls.filterMap
        Call.idemKey).Nodup := by
  decide

/-- C7 amended: in every execution, the idempotency keys carried by the calls
the workflow issues are pairwise distinct, provided the request's
caller-supplied idempotency key is not `sagaID + "-cancel"` (in which case the
placeOrder key and the cancelOrder key coincide, cf. the counterexample);
each key is a fixed function of the request key or saga id, hence identical
across retries of its step. -/
theorem idem_keys_distinct (env : ActivityEnv) (input : PlaceOrderWorkflowInput)
    (hk : input.OrderRequest.IdempotencyKey ≠ input.SagaID ++ "-cancel") :
    ((PlaceOrderWorkflow env input).calls.filterMap Call.idemKey).Nodup := by
  obtain ⟨ve, re, pe, ce, co, cr⟩ := env
  obtain ⟨req, sagaID⟩ := input
  have hk' : req.IdempotencyKey ≠ sagaID ++ "-cancel" := hk
  have hro : req.IdempotencyKey ++ "-reserve" ≠ req.IdempotencyKey ++ "-order" :=
    append_left_ne _ (by decide)
  have hrc : req.IdempotencyKey ++ "-reserve" ≠ req.IdempotencyKey ++ "-commit" :=
    append_left_ne _ (by decide)
  have hoc : req.IdempotencyKey ++ "-order" ≠ req.IdempotencyKey ++ "-commit" :=
    append_left_ne _ (by decide)
  have hrCO : req.IdempotencyKey ++ "-reserve" ≠ sagaID ++ "-cancel-order" :=
    append_ne_of_last_ne (by decide) (by decide) (by decide) _ _
  have hrCR : req.IdempotencyKey ++ "-reserve" ≠ sagaID ++ "-cancel-reservation" :=
    append_ne_of_last_ne (by decide) (by decide) (by decide) _ _
  have hoCO : req.IdempotencyKey ++ "-order" ≠ sagaID ++ "-cancel-order" := by
    intro he
    apply hk'
    exact eq_of_append_eq_append_suffix (c := "-cancel") he
  have hoCR : req.IdempotencyKey ++ "-order" ≠ sagaID ++ "-cancel-reservation" :=
    append_ne_of_last_ne (by decide) (by decide) (by decide) _ _
  have hcCO : req.IdempotencyKey ++ "-commit" ≠ sagaID ++ "-cancel-order" :=
    append_ne_of_last_ne (by decide) (by decide) (by decide) _ _
  have hcCR : req.IdempotencyKey ++ "-commit" ≠ sagaID ++ "-cancel-reservation" :=
    append_ne_of_last_ne (by decide) (by decide) (by decide) _ _
  have hCOCR : sagaID ++ "-cancel-order" ≠ sagaID ++ "-cancel-reservation" :=
    append_left_ne _ (by decide)
  rcases ve with e | v
  · simp [PlaceOrderWorkflow, Call.idemKey]
  · rcases hb : v.Valid with _ | _
    · simp [PlaceOrderWorkflow, hb, Call.idemKey]
    · rcases re with e | r
      · simp [PlaceOrderWorkflow, hb, Call.idemKey]
      · rcases pe with e | p
        · rcases eq_or_ne r.ReservationID "" with hrid | hrid <;>
            simp [PlaceOrderWorkflow, hb, compensate, hrid, Call.idemKey, hro, hrCR, hoCR]
        · rcases ce with e | c
          · rcases eq_or_ne r.ReservationID "" with hrid | hrid <;>
              rcases eq_or_ne p.OrderID "" with hoid | hoid <;>
              simp [PlaceOrderWorkflow, hb, compensate, hrid, hoid, Call.idemKey,
                hro, hrc, hoc, hrCO, hrCR, hoCO, hoCR, hcCO, hcCR, hCOCR]
          · simp [PlaceOrderWorkflow, hb, Call.idemKey, hro, hrc, hoc]

/-- Witness for the amended C7 at the commit-failure execution, where all five
keys occur. -/
theorem idem_keys_distinct_witness :
    sampleInput.OrderRequest.IdempotencyKey ≠ sampleInput.SagaID ++ "-cancel" ∧
    ((PlaceOrderWorkflow envCommitFail sampleInput).calls.filterMap Call.idemKey).Nodup :=
  ⟨by decide, idem_keys_distinct envCommitFail sampleInput (by decide)⟩

/-- C8 counterexample: with commit failing and both compensation activities
failing, the workflow's final result is byte-for-byte the result obtained when
the compensations succeed — the ordinary `Failed` reason with no
CompensationFailure indication (`PlaceOrderWorkflowResult` has no field for
one; `compensate` only logs). -/
theorem compensation_failure_invisible :
    (PlaceOrderWorkflow
        { envCommitFail with
          cancelOrderOutcome := .error "cancel order failed"
          cancelReservationOutcome := .error "cancel reservation failed" }
        sampleInput).result =
      (PlaceOrderWorkflow envCommitFail sampleInput).result ∧
    (PlaceOrderWorkflow
        { envCommitFail with
          cancelOrderOutcome := .error "cancel order failed"
          cancelReservationOutcome := .error "cancel reservation failed" }
        sampleInput).result.FailureReason = "reservation commit failed: commit failed" := by
  decide

/-- C8 amended: the saga's final reported result and returned error are
invariant under the outcomes of CancelOrder and CancelReservation: a
compensation failure is only logged and leaves no trace in the report. -/
theorem result_ignores_compensation_outcomes (env : ActivityEnv)
    (input : PlaceOrderWorkflowInput) (o : Except String CancelOrderResult)
    (r : Except String CancelReservationResult) :
    (PlaceOrderWorkflow
        { env with cancelOrderOutcome := o, cancelReservationOutcome := r }
        input).result = (PlaceOrderWorkflow env input).result ∧
    (PlaceOrderWorkflow
        { env with cancelOrderOutcome := o, cancelReservationOutcome := r }
        input).err = (PlaceOrderWorkflow env input).err := by
  obtain ⟨ve, re, pe, ce, co, cr⟩ := env
  rcases ve with e | v
  · exact ⟨rfl, rfl⟩
  · rcases hb : v.Valid with _ | _ <;>
      rcases re with e | rr <;>
      rcases pe with e | p <;>
      rcases ce with e | c <;>
      simp [PlaceOrderWorkflow, hb]

/-- The transition relation asserted by claim C9 (from the claim's words):
strictly forward along the chain Pending → Validating → Reserving → Matching →
Settled, except that Reserving or Matching may transition to the terminal
states Failed or Cancelled. -/
def specAllowedTransition (s t : OrderStatus) : Bool :=
  (match s, t with
   | .Pending, .Validating => true
   | .Pending, .Reserving => true
   | .Pending, .Matching => true
   | .Pending, .Settled => true
   | .Validating, .Reserving => true
   | .Validating, .Matching => true
   | .Validating, .Settled => true
   | .Reserving, .Matching => true
   | .Reserving, .Settled => true
   | .Matching, .Settled => true
   | _, _ => false) ||
  ((decide (s = .Reserving) || decide (s = .Matching)) &&
   (decide (t = .Failed) || decide (t = .Cancelled)))

/-- The transition relation the code actually exhibits: the workflow never
assigns `Validating` or `Cancelled`, skips from `Pending` straight to
`Reserving`, and on a validation failure assigns `Failed` directly from
`Pending`. -/
def codeTransition (s t : OrderStatus) : Bool :=
  match s, t with
  | .Pending, .Reserving => true
  | .Reserving, .Matching => true
  | .Matching, .Settled => true
  | .Pending, .Failed => true
  | .Reserving, .Failed => true
  | .Matching, .Failed => true
  | _, _ => false

/-- C9 counterexample: a request rejected by validation drives the status from
`Pending` directly to `Failed`, a transition outside the claim's relation
(which admits `Failed` only from `Reserving` or `Matching`). -/
theorem status_pending_to_failed :
    (PlaceOrderWorkflow { envAllOk with validateOutcome := .ok ⟨false, "stake too low"⟩ }
        sampleInput).statuses = [.Pending, .Failed] ∧
    specAllowedTransition .Pending .Failed = false := by
  decide

/-- C9 amended: in every execution the status sequence starts at `Pending` and
each consecutive transition is one of Pending → Reserving, Reserving →
Matching, Matching → Settled, or a transition to `Failed` from `Pending`,
`Reserving` or `Matching` (a validation failure fails the saga directly from
`Pending`); the status never returns to `Pending`, and `Validating` and
`Cancelled` are never assigned.  `Settled` and `Failed` have no outgoing
transitions in this relation, hence are terminal. -/
theorem status_monotonic (env : ActivityEnv) (input : PlaceOrderWorkflowInput) :
    (PlaceOrderWorkflow env input).statuses.head? = some .Pending ∧
    List.Chain' (fun s t => codeTransition s t = true)
      (PlaceOrderWorkflow env input).statuses ∧
    OrderStatus.Pending ∉ (PlaceOrderWorkflow env input).statuses.tail ∧
    OrderStatus.Validating ∉ (PlaceOrderWorkflow env input).statuses ∧
    OrderStatus.Cancelled ∉ (PlaceOrderWorkflow env input).statuses := by
  obtain ⟨ve, re, pe, ce, co, cr⟩ := env
  rcases ve with e | v
  · simp [PlaceOrderWorkflow]; decide
  · rcases hb : v.Valid with _ | _ <;>
      rcases re with e | r <;>
      rcases pe with e | p <;>
      rcases ce with e | c <;>
      · simp [PlaceOrderWorkflow, hb]; decide

/-- Characterisation of requests passing basic validation. -/
theorem validate_none_iff (r : PlaceOrderRequest) :
    r.Validate = none ↔
      r.Odds.LessThanOrEqual (GoDecimal.NewFromInt 1) = false ∧
      r.Stake.LessThanOrEqual GoDecimal.Zero = false ∧
      r.Currency.length = 3 ∧
      (r.Side = OrderSideBack ∨ r.Side = OrderSideLay) := by
  unfold PlaceOrderRequest.Validate
  split_ifs with h1 h2 h3 h4 <;>
    simp_all [Bool.not_eq_true, not_or, Decidable.not_not]
  tauto

/-- A string with a non-empty prefix is non-empty. -/
theorem append_ne_empty_left (p s : String) (hp : p.data ≠ []) : p ++ s ≠ "" := by
  intro h
  have hd : p.data ++ s.data = [] := by
    simpa [String.data_append] using congrArg String.data h
  rcases List.append_eq_nil.mp hd with ⟨h1, _⟩
  exact hp h1

/-- Basic validation only ever reports one of its four fixed messages. -/
theorem validate_some_message {r : PlaceOrderRequest} {err : ValidationError}
    (h : r.Validate = some err) :
    err.Message = ErrInvalidOdds ∨ err.Message = ErrInvalidStake ∨
    err.Message = ErrInvalidCurrency ∨ err.Message = ErrInvalidSide := by
  unfold PlaceOrderRequest.Validate at h
  split_ifs at h <;> simp_all <;> simp [← h]

/-- C10: for every configuration and every request, `ValidateOrder` returns a
non-nil `ValidationResult` together with a nil error, and a rejection is
reported only through `Valid = false` with a non-empty `Reason`.  Hence the
workflow's post-validation error branch cannot be triggered by the validator
itself. -/
theorem validateOrder_total (a : ValidationActivities) (req : PlaceOrderRequest) :
    ∃ r : ValidationResult, a.ValidateOrder req = (some r, none) ∧
      (r.Valid = false → r.Reason ≠ "") := by
  unfold ValidationActivities.ValidateOrder
  rcases hv : req.Validate with _ | err
  · split_ifs <;>
      first
        | exact ⟨⟨true, ""⟩, rfl, by simp⟩
        | exact ⟨_, rfl, fun _ => append_ne_empty_left _ _ (by decide)⟩
  · refine ⟨⟨false, err.Error⟩, rfl, fun _ => ?_⟩
    rcases validate_some_message hv with h | h | h | h <;>
      simp [ValidationError.Error, h, ErrInvalidOdds, ErrInvalidStake,
        ErrInvalidCurrency, ErrInvalidSide]

/-- C4 counterexample: a request with an empty event id and an empty
idempotency key (all other fields valid) is accepted by `ValidateOrder`, not
rejected: no required-field presence check exists. -/
theorem empty_ids_accepted :
    ({ sampleRequest with EventID := "", IdempotencyKey := "" } :
        PlaceOrderRequest).EventID = "" ∧
    ({ sampleRequest with EventID := "", IdempotencyKey := "" } :
        PlaceOrderRequest).IdempotencyKey = "" ∧
    NewValidationActivities.ValidateOrder
        { sampleRequest with EventID := "", IdempotencyKey := "" } =
      (some ⟨true, ""⟩, none) := by
  decide

/-- On a common rescaling, `GreaterThan` is the boolean negation of
`LessThanOrEqual`. -/
theorem GoDecimal.greaterThan_eq_not_le (a b : GoDecimal) :
    a.GreaterThan b = !(a.LessThanOrEqual b) := by
  unfold GoDecimal.GreaterThan GoDecimal.LessThanOrEqual
  rcases GoDecimal.rescale2 a b with ⟨x, y⟩
  by_cases h : x ≤ y
  · simp [h, not_lt.mpr h]
  · simp [h, lt_of_not_le h]

/-- The order of checks described by the amended claim C4, written as one
short-circuiting chain (following the source's actual order): odds > 1.0,
stake > 0, currency exactly 3 characters, side BACK or LAY, then stake ≥
minStake, stake ≤ maxStake, odds ≥ minOdds, odds ≤ maxOdds.  No presence
check on user id, event/market/selection ids or the idempotency key. -/
def orderedChecks (a : ValidationActivities) (req : PlaceOrderRequest) :
    ValidationResult :=
  if ¬ req.Odds.GreaterThan (GoDecimal.NewFromInt 1) then ⟨false, ErrInvalidOdds⟩
  else if ¬ req.Stake.GreaterThan GoDecimal.Zero then ⟨false, ErrInvalidStake⟩
  else if req.Currency.length ≠ 3 then ⟨false, ErrInvalidCurrency⟩
  else if ¬ (req.Side = OrderSideBack ∨ req.Side = OrderSideLay) then ⟨false, ErrInvalidSide⟩
  else if req.Stake.LessThan a.minStake then
    ⟨false, "stake too low: minimum is " ++ a.minStake.String⟩
  else if req.Stake.GreaterThan a.maxStake then
    ⟨false, "stake too high: maximum is " ++ a.maxStake.String⟩
  else if req.Odds.LessThan a.minOdds then
    ⟨false, "odds too low: minimum is " ++ a.minOdds.String⟩
  else if req.Odds.GreaterThan a.maxOdds then
    ⟨false, "odds too high: maximum is " ++ a.maxOdds.String⟩
  else ⟨true, ""⟩

/-- C4 amended: for every configuration and request, `ValidateOrder` is the
short-circuiting check chain `orderedChecks` — odds > 1.0 first, then
stake > 0, then currency length, then side, then the stake range, then the
odds range — with a nil error; there is no presence check on the ids or the
idempotency key. -/
theorem validateOrder_check_order (a : ValidationActivities)
    (req : PlaceOrderRequest) :
    a.ValidateOrder req = (some (orderedChecks a req), none) := by
  unfold ValidationActivities.ValidateOrder orderedChecks PlaceOrderRequest.Validate
    ValidationError.Error
  have g1 := GoDecimal.greaterThan_eq_not_le req.Odds (GoDecimal.NewFromInt 1)
  have g2 := GoDecimal.greaterThan_eq_not_le req.Stake GoDecimal.Zero
  rcases h1 : req.Odds.LessThanOrEqual (GoDecimal.NewFromInt 1) with _ | _ <;>
    rw [h1] at g1 <;> simp only [Bool.not_false, Bool.not_true] at g1 <;>
    simp only [h1, g1] <;> try simp
  rcases h2 : req.Stake.LessThanOrEqual GoDecimal.Zero with _ | _ <;>
    rw [h2] at g2 <;> simp only [Bool.not_false, Bool.not_true] at g2 <;>
    simp only [h2, g2] <;> try simp
  by_cases h3 : req.Currency.length = 3 <;> simp only [h3] <;> try simp
  by_cases h4 : req.Side = OrderSideBack ∨ req.Side = OrderSideLay
  · have h4' : ¬ (req.Side ≠ OrderSideBack ∧ req.Side ≠ OrderSideLay) := by tauto
    simp only [if_neg h4']
    split_ifs <;> rfl
  · have h4' : req.Side ≠ OrderSideBack ∧ req.Side ≠ OrderSideLay := by tauto
    simp [h4, h4']

/-- C5: for a request passing basic validation whose odds and stake lie in the
configured ranges, `ValidateOrder` with the hard-coded configuration (minStake
1, maxStake 10000, minOdds 1.01, maxOdds 1000) accepts the boundary values
exactly, rejects the values one least-significant decimal step outside each
bound (0.99, 10000.01, 1.009, 1000.01 — the values the repository's own
boundary tests use), and the four out-of-range reason strings are pairwise
distinct and stable. -/
theorem validateOrder_boundaries (req : PlaceOrderRequest)
    (hw : req.Validate = none)
    (hlo : req.Odds.LessThan ⟨101, -2⟩ = false)
    (hhi : req.Odds.GreaterThan ⟨1000, 0⟩ = false)
    (hslo : req.Stake.LessThan ⟨1, 0⟩ = false)
    (hshi : req.Stake.GreaterThan ⟨10000, 0⟩ = false) :
    (NewValidationActivities.ValidateOrder { req with Stake := ⟨1, 0⟩ } =
      (some ⟨true, ""⟩, none) ∧
    NewValidationActivities.ValidateOrder { req with Stake := ⟨10000, 0⟩ } =
      (some ⟨true, ""⟩, none) ∧
    NewValidationActivities.ValidateOrder { req with Odds := ⟨101, -2⟩ } =
      (some ⟨true, ""⟩, none) ∧
    NewValidationActivities.ValidateOrder { req with Odds := ⟨1000, 0⟩ } =
      (some ⟨true, ""⟩, none)) ∧
    (NewValidationActivities.ValidateOrder { req with Stake := ⟨99, -2⟩ } =
      (some ⟨false, "stake too low: minimum is 1"⟩, none) ∧
    NewValidationActivities.ValidateOrder { req with Stake := ⟨1000001, -2⟩ } =
      (some ⟨false, "stake too high: maximum is 10000"⟩, none) ∧
    NewValidationActivities.ValidateOrder { req with Odds := ⟨1009, -3⟩ } =
      (some ⟨false, "odds too low: minimum is 1.01"⟩, none) ∧
    NewValidationActivities.ValidateOrder { req with Odds := ⟨100001, -2⟩ } =
      (some ⟨false, "odds too high: maximum is 1000"⟩, none)) ∧
    (["stake too low: minimum is 1", "stake too high: maximum is 10000",
      "odds too low: minimum is 1.01", "odds too high: maximum is 1000"] :
      List String).Nodup := by
  obtain ⟨ho1, hs1, hc3, hside⟩ := (validate_none_iff req).mp hw
  have vStake : ∀ v : GoDecimal, v.LessThanOrEqual GoDecimal.Zero = false →
      ({ req with Stake := v } : PlaceOrderRequest).Validate = none := by
    intro v hv
    exact (validate_none_iff _).mpr ⟨ho1, hv, hc3, hside⟩
  have vOdds : ∀ v : GoDecimal, v.LessThanOrEqual (GoDecimal.NewFromInt 1) = false →
      ({ req with Odds := v } : PlaceOrderRequest).Validate = none := by
    intro v hv
    exact (validate_none_iff _).mpr ⟨hv, hs1, hc3, hside⟩
  refine ⟨⟨?_, ?_, ?_, ?_⟩, ⟨?_, ?_, ?_, ?_⟩, by decide⟩ <;>
    first
      | (rw [ValidationActivities.ValidateOrder, vStake _ (by decide)]
         simp [NewValidationActivities, hlo, hhi] <;> decide)
      | (rw [ValidationActivities.ValidateOrder, vOdds _ (by decide)]
         simp [NewValidationActivities, hslo, hshi] <;> decide)

/-- Witness for C5 at a concrete well-formed in-range request. -/
theorem validateOrder_boundaries_witness :
    sampleRequest.Validate = none ∧
    sampleRequest.Odds.LessThan ⟨101, -2⟩ = false ∧
    sampleRequest.Odds.GreaterThan ⟨1000, 0⟩ = false ∧
    sampleRequest.Stake.LessThan ⟨1, 0⟩ = false ∧
    sampleRequest.Stake.GreaterThan ⟨10000, 0⟩ = false ∧
    NewValidationActivities.ValidateOrder { sampleRequest with Stake := ⟨1, 0⟩ } =
      (some ⟨true, ""⟩, none) ∧
    NewValidationActivities.ValidateOrder { sampleRequest with Stake := ⟨99, -2⟩ } =
      (some ⟨false, "stake too low: minimum is 1"⟩, none) :=
  ⟨by decide, by decide, by decide, by decide, by decide,
   (validateOrder_boundaries sampleRequest (by decide) (by decide) (by decide)
     (by decide) (by decide)).1.1,
   (validateOrder_boundaries sampleRequest (by decide) (by decide) (by decide)
     (by decide) (by decide)).2.1.1⟩
